import Mathlib

/-!
Verification of the browser instance-acquisition module
(`browser_use/browser/browser.py`).

The module is a thin lifecycle manager around an external browser-automation
library.  We give a shallow embedding: each method of the `Browser` class
becomes a pure Lean function from an environment (the observable behaviour of
the outside world: probe responses, connect/launch/terminate outcomes) and a
browser state to an outcome record carrying the returned value or raised
error, the ordered trace of external effects performed, and the updated state.

Modelling conventions, stated once here:
* Python truthiness on optional strings (`if self.config.cdp_url:`) is
  `truthy`: `None` and the empty string are falsy.
* `requests.get(...)` against the fixed local debugging endpoint is modelled
  by `Env.probe t`, the outcome of the t-th probe of that endpoint during the
  run.  `ProbeResult.connError` and `ProbeResult.timeout` both model
  exceptions of class `requests.ConnectionError` (connection refused, and
  `ConnectTimeout` which subclasses `ConnectionError`), the class the source
  catches; `ProbeResult.ok s` models an HTTP response with status code `s`.
* Connecting the automation library to the local debugging endpoint
  immediately after a probe is modelled as succeeding exactly when the most
  recent probe of that endpoint returned HTTP 200 (the endpoint state does
  not change between two back-to-back operations).
* Connecting to a configured remote CDP/WSS URL succeeds iff
  `Env.remoteConnectOk`; a fresh launch succeeds iff `Env.launchOk`;
  terminating the owned instance succeeds iff `Env.terminateOk`.
* Logging calls are not recorded in the effect trace: they touch no external
  resource relevant to the specification.
-/

/-- Configuration for the Browser (`BrowserConfig` dataclass).

The source field `new_context_config` is omitted: its type is defined in
`browser_use/browser/context.py`, which is not part of the sources under
verification, and no code verified here ever reads it.  The leading
underscore of `_force_keep_browser_alive` is dropped.  `proxy` is a
`dict | None` in the source, read only as `self.config.proxy["server"]`
guarded by truthiness of the dict; we model it by the optional server
string. -/
structure BrowserConfig where
  headless : Bool := false
  disable_security : Bool := true
  extra_chromium_args : List String := []
  chrome_instance_path : Option String := none
  wss_url : Option String := none
  cdp_url : Option String := none
  proxy : Option String := none
  force_keep_browser_alive : Bool := false
deriving Repr, DecidableEq

/-- Python truthiness of an optional string: `None` and the empty string
are falsy. -/
def truthy : Option String → Bool
  | none => false
  | some s => !s.isEmpty

/-- A live `DrissionPage` handle: either attached to a running instance via a
URL, or freshly launched with an argument list. -/
inductive Handle where
  | connected (url : String)
  | launched (args : List String)
deriving Repr, DecidableEq

/-- The mutable state of a `Browser` object: its configuration, the optional
live handle (`self.drission`), and the security-hardening argument list
computed once in `__init__`. -/
structure BrowserState where
  config : BrowserConfig
  drission : Option Handle
  disable_security_args : List String
deriving Repr, DecidableEq

/-- The security-hardening arguments computed in `Browser.__init__`:
nonempty exactly when `disable_security` is set. -/
def securityArgs (disable_security : Bool) : List String :=
  if disable_security then
    ["--disable-web-security",
     "--disable-site-isolation-trials",
     "--disable-features=IsolateOrigins,site-per-process"]
  else []

/-- `Browser.__init__`: stores the configuration, no live handle yet,
and precomputes the `disable_security_args` list. -/
def mkBrowser (config : BrowserConfig) : BrowserState :=
  { config := config
    drission := none
    disable_security_args := securityArgs config.disable_security }

/-- Outcome of one probe (`requests.get`) of the local debugging endpoint.
`connError` and `timeout` both stand for exceptions of class
`requests.ConnectionError` (connection refused, connect timeout), the class
the source catches. -/
inductive ProbeResult where
  | ok (status : Nat)
  | connError
  | timeout
deriving Repr, DecidableEq

/-- A probe succeeded in the sense of the source tests: an HTTP response
with status code 200. -/
def probeOk200 : ProbeResult → Bool
  | .ok s => s == 200
  | .connError => false
  | .timeout => false

/-- The observable behaviour of the outside world during one run. -/
structure Env where
  /-- Result of the t-th probe of `http://localhost:9222/json/version`. -/
  probe : Nat → ProbeResult
  /-- Whether connecting to a configured remote CDP/WSS URL succeeds. -/
  remoteConnectOk : Bool
  /-- Whether a fresh launch (`DrissionPage(options=...)`) succeeds. -/
  launchOk : Bool
  /-- Whether `self.drission.close()` succeeds in `close()`. -/
  terminateOk : Bool

/-- An external effect performed by the module, in program order.
`spawn` records the argument vector of `subprocess.Popen` and whether the
standard output and standard error of the child are discarded
(`subprocess.DEVNULL`). -/
inductive Effect where
  | probe (url : String)
  | spawn (cmd : List String) (discardStdout : Bool) (discardStderr : Bool)
  | connectUrl (url : String)
  | launch (args : List String)
  | sleep (seconds : Nat)
  | terminate
  | gcCollect
deriving Repr, DecidableEq

/-- Errors that `acquire`-path methods can raise. -/
inductive AcqError where
  /-- `ValueError` for a missing required configuration entry. -/
  | valueError (msg : String)
  /-- The automation library failed to connect to the given URL. -/
  | connectError (url : String)
  /-- The `RuntimeError` raised at the end of reuse-or-launch. -/
  | launchConflict (msg : String)
  /-- The automation library failed to launch a fresh instance. -/
  | launchError
deriving Repr, DecidableEq

/-- Result of running one acquisition method: the returned handle or raised
error, the trace of external effects, and the updated browser state. -/
structure AcqOutcome where
  result : Except AcqError Handle
  effects : List Effect
  state : BrowserState
deriving Repr

/-- The fixed local debugging probe URL. -/
def probeUrl : String := "http://localhost:9222/json/version"

/-- The fixed local debugging attach URL. -/
def debugUrl : String := "http://localhost:9222"

/-- The exact message of the `RuntimeError` raised when reuse-or-launch
cannot attach after spawning. -/
def chromeConflictMsg : String :=
  "To start chrome in Debug mode, you need to close all existing Chrome instances and try again otherwise we cannot connect to the instance."

/-- The launch options assembled by `Browser._init`: the headless flag when
configured, then the extra arguments, then the security-hardening
arguments, in source order.  The source guards the two loops with emptiness
tests, which are no-ops. -/
def initOptions (st : BrowserState) : List String :=
  (if st.config.headless then ["--headless"] else [])
    ++ st.config.extra_chromium_args ++ st.disable_security_args

/-- `Browser._init`: assemble options from the headless flag, the extra
arguments and the security-hardening arguments, then launch a fresh
instance and store the handle. -/
def Browser.init (e : Env) (st : BrowserState) : AcqOutcome :=
  let opts := initOptions st
  if e.launchOk then
    let h := Handle.launched opts
    { result := .ok h
      effects := [Effect.launch opts]
      state := { st with drission := some h } }
  else
    { result := .error .launchError
      effects := [Effect.launch opts]
      state := st }

/-- `Browser.get_drission_browser`: return the live handle if one exists,
otherwise run `_init` (note: the source calls `_init` here, not
`_setup_browser`). -/
def Browser.get_drission_browser (e : Env) (st : BrowserState) : AcqOutcome :=
  match st.drission with
  | none => Browser.init e st
  | some d => { result := .ok d, effects := [], state := st }

/-- `Browser._setup_cdp`: require a truthy CDP URL, then connect to it. -/
def Browser.setup_cdp (e : Env) (st : BrowserState) : AcqOutcome :=
  if truthy st.config.cdp_url = false then
    { result := .error (.valueError "CDP URL is required"), effects := [], state := st }
  else
    let url := st.config.cdp_url.getD ""
    if e.remoteConnectOk then
      let h := Handle.connected url
      { result := .ok h
        effects := [Effect.connectUrl url]
        state := { st with drission := some h } }
    else
      { result := .error (.connectError url)
        effects := [Effect.connectUrl url]
        state := st }

/-- `Browser._setup_wss`: require a truthy WSS URL, then connect to it. -/
def Browser.setup_wss (e : Env) (st : BrowserState) : AcqOutcome :=
  if truthy st.config.wss_url = false then
    { result := .error (.valueError "WSS URL is required"), effects := [], state := st }
  else
    let url := st.config.wss_url.getD ""
    if e.remoteConnectOk then
      let h := Handle.connected url
      { result := .ok h
        effects := [Effect.connectUrl url]
        state := { st with drission := some h } }
    else
      { result := .error (.connectError url)
        effects := [Effect.connectUrl url]
        state := st }

/-- The post-spawn readiness poll `for _ in range(10)`: probe, break on a
200 response, otherwise sleep one second and retry.  `k` is the number of
iterations left, `t` the index of the next probe.  Returns the number of
poll attempts made, whether the loop ended on a 200 response, and the
effect trace of the loop. -/
def pollLoop (e : Env) : Nat → Nat → Nat × Bool × List Effect
  | 0, _ => (0, false, [])
  | k + 1, t =>
    if probeOk200 (e.probe t) then
      (1, true, [Effect.probe probeUrl])
    else
      let r := pollLoop e k (t + 1)
      (r.1 + 1, r.2.1, Effect.probe probeUrl :: Effect.sleep 1 :: r.2.2)

/-- `Browser._setup_browser_with_instance` (reuse-or-launch): probe the local
debugging endpoint; on a 200 response attach to the running instance and
return; otherwise spawn the configured executable with the remote-debugging
port argument and the extra arguments (child stdout/stderr discarded), poll
up to 10 times, then attempt the attach; a failed final attach raises the
conflict `RuntimeError`.  Attach success follows the most recent probe
result, per the conventions above. -/
def Browser.setup_browser_with_instance (e : Env) (st : BrowserState) : AcqOutcome :=
  if truthy st.config.chrome_instance_path = false then
    { result := .error (.valueError "Chrome instance path is required")
      effects := [], state := st }
  else
    let path := st.config.chrome_instance_path.getD ""
    if probeOk200 (e.probe 0) then
      let h := Handle.connected debugUrl
      { result := .ok h
        effects := [Effect.probe probeUrl, Effect.connectUrl debugUrl]
        state := { st with drission := some h } }
    else
      let cmd := [path, "--remote-debugging-port=9222"] ++ st.config.extra_chromium_args
      let r := pollLoop e 10 1
      let fx := Effect.probe probeUrl :: Effect.spawn cmd true true :: r.2.2
      if r.2.1 then
        let h := Handle.connected debugUrl
        { result := .ok h
          effects := fx ++ [Effect.connectUrl debugUrl]
          state := { st with drission := some h } }
      else
        { result := .error (.launchConflict chromeConflictMsg)
          effects := fx ++ [Effect.connectUrl debugUrl]
          state := st }

/-- The fixed baseline argument list of `Browser._setup_standard_browser`. -/
def standardArgs : List String :=
  ["--no-sandbox",
   "--disable-blink-features=AutomationControlled",
   "--disable-infobars",
   "--disable-background-timer-throttling",
   "--disable-popup-blocking",
   "--disable-backgrounding-occluded-windows",
   "--disable-renderer-backgrounding",
   "--disable-window-activation",
   "--disable-focus-on-load",
   "--no-first-run",
   "--no-default-browser-check",
   "--no-startup-window",
   "--window-position=0,0"]

/-- The option list assembled by `Browser._setup_standard_browser`: headless
flag, baseline arguments, security-hardening arguments, extra arguments,
and a proxy-server argument when a proxy is configured, in source order. -/
def standardOptions (st : BrowserState) : List String :=
  (if st.config.headless then ["--headless"] else [])
    ++ standardArgs ++ st.disable_security_args ++ st.config.extra_chromium_args
    ++ (match st.config.proxy with
        | some server => ["--proxy-server=" ++ server]
        | none => [])

/-- `Browser._setup_standard_browser`: assemble the standard options and
launch a fresh instance. -/
def Browser.setup_standard_browser (e : Env) (st : BrowserState) : AcqOutcome :=
  let opts := standardOptions st
  if e.launchOk then
    let h := Handle.launched opts
    { result := .ok h
      effects := [Effect.launch opts]
      state := { st with drission := some h } }
  else
    { result := .error .launchError
      effects := [Effect.launch opts]
      state := st }

/-- `Browser._setup_browser`: dispatch on the configuration in source order
(CDP, then WSS, then fixed instance path, then standard launch).  The
surrounding try/except logs and re-raises, leaving the outcome unchanged. -/
def Browser.setup_browser (e : Env) (st : BrowserState) : AcqOutcome :=
  if truthy st.config.cdp_url then Browser.setup_cdp e st
  else if truthy st.config.wss_url then Browser.setup_wss e st
  else if truthy st.config.chrome_instance_path then Browser.setup_browser_with_instance e st
  else Browser.setup_standard_browser e st

/-- Outcome of `Browser.close`: the exception escaping the call (always
`none`, since the body's except clause catches `Exception`), the updated
state, and the effect trace. -/
structure CloseOutcome where
  raised : Option String
  state : BrowserState
  effects : List Effect
deriving Repr, DecidableEq

/-- The try-block of `Browser.close`: unless keep-alive is set, terminate
the live handle (if any) and clear it.  Returns the exception raised inside
the block (if `drission.close()` failed), the state and effects reached by
then. -/
def Browser.close_try (e : Env) (st : BrowserState) : Option String × BrowserState × List Effect :=
  if st.config.force_keep_browser_alive then (none, st, [])
  else
    match st.drission with
    | none => (none, st, [])
    | some _ =>
      if e.terminateOk then (none, { st with drission := none }, [Effect.terminate])
      else (some "terminate failed", st, [Effect.terminate])

/-- `Browser.close`: run the try-block; any exception is caught and logged
(`except Exception`); the finally-block clears `self.drission` and runs
`gc.collect()` regardless of outcome, so the call never raises. -/
def Browser.close (e : Env) (st : BrowserState) : CloseOutcome :=
  let r := Browser.close_try e st
  { raised := none
    state := { r.2.1 with drission := none }
    effects := r.2.2 ++ [Effect.gcCollect] }

/-- The connection mode of the specification, selected in the priority
order the specification states: CDP endpoint, then WebSocket endpoint, then
fixed executable path, then fresh standard launch.  Written from the
specification text, to be compared with the dispatch of
`Browser.setup_browser`. -/
inductive Mode where
  | cdpAttach
  | wssAttach
  | reuseOrLaunch
  | standardLaunch
deriving Repr, DecidableEq

/-- Modelled from the spec: the mode-selection rule of section 4.1,
first match wins. -/
def selectedMode (c : BrowserConfig) : Mode :=
  if truthy c.cdp_url then .cdpAttach
  else if truthy c.wss_url then .wssAttach
  else if truthy c.chrome_instance_path then .reuseOrLaunch
  else .standardLaunch

/-- Whether an effect is a process spawn. -/
def isSpawn : Effect → Bool
  | .spawn _ _ _ => true
  | _ => false

/-- Whether an effect is a probe of the local debugging endpoint. -/
def isProbe : Effect → Bool
  | .probe _ => true
  | _ => false

/-- The effects performed strictly after the first spawn of a trace. -/
def afterFirstSpawn (fx : List Effect) : List Effect :=
  (fx.dropWhile (fun x => !isSpawn x)).drop 1


/-! ## Concrete fixtures (used by the witness theorems) -/

/-- An environment in which the local debugging endpoint never answers
(every probe is refused). -/
def envDown : Env :=
  { probe := fun _ => .connError, remoteConnectOk := true,
    launchOk := true, terminateOk := true }

/-- An environment in which the local debugging endpoint is already
serving (every probe returns HTTP 200). -/
def envUp : Env :=
  { probe := fun _ => .ok 200, remoteConnectOk := true,
    launchOk := true, terminateOk := true }

/-- An environment in which the first probe times out and the endpoint
serves afterwards. -/
def envLateUp : Env :=
  { probe := fun t => if t = 0 then .timeout else .ok 200,
    remoteConnectOk := true, launchOk := true, terminateOk := true }

/-- An environment in which terminating the instance fails. -/
def envTerminateFail : Env :=
  { probe := fun _ => .connError, remoteConnectOk := true,
    launchOk := true, terminateOk := false }

/-- A configuration with only a fixed executable path (reuse-or-launch). -/
def pathCfg : BrowserConfig :=
  { chrome_instance_path := some "/usr/bin/google-chrome" }

/-- A configuration with a CDP endpoint. -/
def cdpCfg : BrowserConfig :=
  { cdp_url := some "http://remotehost:9222" }

/-- A configuration with CDP, WSS, executable path and proxy all set. -/
def allEndpointsCfg : BrowserConfig :=
  { cdp_url := some "http://remotehost:9222", wss_url := some "ws://remotehost:9222",
    chrome_instance_path := some "/usr/bin/google-chrome",
    proxy := some "http://proxyhost:8080" }

/-- The all-defaults configuration. -/
def plainCfg : BrowserConfig := {}

/-- A configuration with the security-hardening flag off. -/
def noSecCfg : BrowserConfig := { disable_security := false }

/-- A state holding a live handle, with default configuration. -/
def liveState : BrowserState :=
  { config := {}, drission := some (Handle.connected debugUrl),
    disable_security_args := [] }

/-- A state holding a live handle, with the keep-alive flag set. -/
def keepAliveState : BrowserState :=
  { config := { force_keep_browser_alive := true },
    drission := some (Handle.connected debugUrl),
    disable_security_args := [] }

/-! ## Helper lemmas -/

/-- Under the configuration hypotheses of reuse-or-launch, the dispatch of
`_setup_browser` reaches `_setup_browser_with_instance`. -/
theorem setup_browser_instance_mode (e : Env) (st : BrowserState)
    (hc : truthy st.config.cdp_url = false) (hw : truthy st.config.wss_url = false)
    (hp : truthy st.config.chrome_instance_path = true) :
    Browser.setup_browser e st = Browser.setup_browser_with_instance e st := by
  unfold Browser.setup_browser
  simp [hc, hw, hp]

/-- When every probe fails, the readiness poll makes all `k` attempts, ends
without a 200 response, and its trace is `k` probe/sleep pairs. -/
theorem pollLoop_all_fail (e : Env) (hf : ∀ t, probeOk200 (e.probe t) = false) :
    ∀ k t, pollLoop e k t =
      (k, false, (List.replicate k [Effect.probe probeUrl, Effect.sleep 1]).flatten) := by
  intro k
  induction k with
  | zero => intro t; simp [pollLoop]
  | succ n ih =>
    intro t
    simp [pollLoop, hf t, ih (t + 1), List.replicate_succ]

/-- The poll trace of `k` failed attempts holds exactly `k` probes and no
spawn. -/
theorem pollTrace_filter (k : Nat) :
    ((List.replicate k [Effect.probe probeUrl, Effect.sleep 1]).flatten.filter isProbe)
        = List.replicate k (Effect.probe probeUrl) ∧
    ((List.replicate k [Effect.probe probeUrl, Effect.sleep 1]).flatten.filter isSpawn) = [] := by
  induction k with
  | zero => simp
  | succ n ih => simp [List.replicate_succ, ih.1, ih.2, isProbe, isSpawn]

/-- The readiness poll never spawns a process, whatever the environment. -/
theorem pollLoop_no_spawn (e : Env) : ∀ k t, ((pollLoop e k t).2.2.filter isSpawn) = [] := by
  intro k
  induction k with
  | zero => intro t; simp [pollLoop]
  | succ n ih =>
    intro t
    by_cases h : probeOk200 (e.probe t) <;> simp [pollLoop, h, ih (t + 1), isSpawn, isProbe]

/-! ## Claim theorems -/

/-- C4: `acquire` is idempotent: on an Acquirer that already holds a live
handle, `get_drission_browser` returns that same handle, performs no
external effect, and leaves the state unchanged. -/
theorem acquire_idempotent_when_live (e : Env) (st : BrowserState) (h : Handle)
    (hl : st.drission = some h) :
    Browser.get_drission_browser e st = { result := .ok h, effects := [], state := st } := by
  unfold Browser.get_drission_browser
  rw [hl]

/-- Witness for C4 at a concrete live state. -/
theorem acquire_idempotent_when_live_witness :
    liveState.drission = some (Handle.connected debugUrl) ∧
    Browser.get_drission_browser envDown liveState
      = { result := .ok (Handle.connected debugUrl), effects := [], state := liveState } :=
  ⟨rfl, acquire_idempotent_when_live envDown liveState (Handle.connected debugUrl) rfl⟩

/-- C5: for every configuration, the dispatch of `_setup_browser` agrees
with the specification's mode-selection rule, evaluated in strict priority
order with first match winning: CDP attach, then WSS attach, then
reuse-or-launch, then fresh standard launch. -/
theorem mode_selection_priority (e : Env) (st : BrowserState) :
    Browser.setup_browser e st =
      (match selectedMode st.config with
        | .cdpAttach => Browser.setup_cdp e st
        | .wssAttach => Browser.setup_wss e st
        | .reuseOrLaunch => Browser.setup_browser_with_instance e st
        | .standardLaunch => Browser.setup_standard_browser e st) := by
  unfold Browser.setup_browser selectedMode
  by_cases h1 : truthy st.config.cdp_url <;>
    by_cases h2 : truthy st.config.wss_url <;>
      by_cases h3 : truthy st.config.chrome_instance_path <;>
        simp [h1, h2, h3]

/-- C7: `close` never raises and is idempotent: for every environment
(including one where terminating the instance fails) and every state, both
a first call and an immediately repeated call return without an exception
and leave the handle reference cleared. -/
theorem close_never_raises_idempotent (e : Env) (st : BrowserState) :
    (Browser.close e st).raised = none ∧
    (Browser.close e st).state.drission = none ∧
    (Browser.close e (Browser.close e st).state).raised = none ∧
    (Browser.close e (Browser.close e st).state).state.drission = none :=
  ⟨rfl, rfl, rfl, rfl⟩

/-- C8: with the keep-alive flag set, `close` clears the handle reference,
changes nothing else in the state, and issues no termination call (its only
effect is the `gc.collect()` of the finally-block). -/
theorem close_keep_alive_no_terminate (e : Env) (st : BrowserState)
    (hk : st.config.force_keep_browser_alive = true) :
    Browser.close e st =
      { raised := none, state := { st with drission := none },
        effects := [Effect.gcCollect] } := by
  unfold Browser.close Browser.close_try
  simp [hk]

/-- Witness for C8 at a concrete keep-alive state, in an environment where
terminating would fail if attempted. -/
theorem close_keep_alive_no_terminate_witness :
    keepAliveState.config.force_keep_browser_alive = true ∧
    Browser.close envTerminateFail keepAliveState
      = { raised := none, state := { keepAliveState with drission := none },
          effects := [Effect.gcCollect] } :=
  ⟨rfl, close_keep_alive_no_terminate envTerminateFail keepAliveState rfl⟩

/-- C2: in reuse-or-launch, when the initial probe of the local debugging
endpoint returns HTTP 200, `acquire` attaches to the already-running
instance and returns it, with no spawn (its whole trace is the probe and
the attach). -/
theorem reuse_when_probe_succeeds (e : Env) (c : BrowserConfig)
    (hc : truthy c.cdp_url = false) (hw : truthy c.wss_url = false)
    (hp : truthy c.chrome_instance_path = true)
    (h0 : e.probe 0 = .ok 200) :
    Browser.setup_browser e (mkBrowser c) =
      { result := .ok (Handle.connected debugUrl)
        effects := [Effect.probe probeUrl, Effect.connectUrl debugUrl]
        state := { mkBrowser c with drission := some (Handle.connected debugUrl) } } := by
  rw [setup_browser_instance_mode e (mkBrowser c) hc hw hp]
  unfold Browser.setup_browser_with_instance
  simp [mkBrowser, hp, h0, probeOk200]

/-- Witness for C2: a path-only configuration against an endpoint that is
already serving. -/
theorem reuse_when_probe_succeeds_witness :
    truthy pathCfg.cdp_url = false ∧
    truthy pathCfg.wss_url = false ∧
    truthy pathCfg.chrome_instance_path = true ∧
    envUp.probe 0 = .ok 200 ∧
    Browser.setup_browser envUp (mkBrowser pathCfg)
      = { result := .ok (Handle.connected debugUrl)
          effects := [Effect.probe probeUrl, Effect.connectUrl debugUrl]
          state := { mkBrowser pathCfg with drission := some (Handle.connected debugUrl) } } :=
  ⟨rfl, rfl, rfl, rfl, reuse_when_probe_succeeds envUp pathCfg rfl rfl rfl rfl⟩

/-- C3: with a CDP endpoint configured, the mode dispatch performs exactly
one connect call, to that endpoint, and never probes the local debugging
port (the trace is a single connect and holds no probe). -/
theorem cdp_single_connect_no_probe (e : Env) (st : BrowserState)
    (hcdp : truthy st.config.cdp_url = true) :
    (Browser.setup_browser e st).effects = [Effect.connectUrl (st.config.cdp_url.getD "")] ∧
    (Browser.setup_browser e st).effects.filter isProbe = [] := by
  have hd : Browser.setup_browser e st = Browser.setup_cdp e st := by
    unfold Browser.setup_browser
    simp [hcdp]
  rw [hd]
  unfold Browser.setup_cdp
  by_cases h : e.remoteConnectOk <;> simp [hcdp, h, isProbe]

/-- Witness for C3 at a concrete CDP configuration. -/
theorem cdp_single_connect_no_probe_witness :
    truthy (mkBrowser cdpCfg).config.cdp_url = true ∧
    (Browser.setup_browser envDown (mkBrowser cdpCfg)).effects
      = [Effect.connectUrl ((mkBrowser cdpCfg).config.cdp_url.getD "")] ∧
    (Browser.setup_browser envDown (mkBrowser cdpCfg)).effects.filter isProbe = [] :=
  ⟨rfl,
   (cdp_single_connect_no_probe envDown (mkBrowser cdpCfg) rfl).1,
   (cdp_single_connect_no_probe envDown (mkBrowser cdpCfg) rfl).2⟩

/-- C9: the public entry point `get_drission_browser`, when no handle is
live, runs the fresh-launch path `_init`: its single effect is a launch
whose options are exactly the headless flag, the extra launch arguments and
the security-hardening arguments; and its result and effects are identical
for any two configurations agreeing on just those three inputs, however
they differ on the CDP endpoint, the WebSocket endpoint, the fixed
executable path or the proxy (mode selection in `_setup_browser` is never
reached). -/
theorem public_acquire_runs_init_only (e : Env) (c1 c2 : BrowserConfig)
    (hh : c1.headless = c2.headless)
    (he : c1.extra_chromium_args = c2.extra_chromium_args)
    (hs : c1.disable_security = c2.disable_security) :
    (Browser.get_drission_browser e (mkBrowser c1)).result
        = (Browser.get_drission_browser e (mkBrowser c2)).result ∧
    (Browser.get_drission_browser e (mkBrowser c1)).effects
        = (Browser.get_drission_browser e (mkBrowser c2)).effects ∧
    (Browser.get_drission_browser e (mkBrowser c1)).effects
        = [Effect.launch (initOptions (mkBrowser c1))] ∧
    initOptions (mkBrowser c1)
        = (if c1.headless then ["--headless"] else [])
            ++ c1.extra_chromium_args ++ securityArgs c1.disable_security := by
  have hopts : initOptions (mkBrowser c1) = initOptions (mkBrowser c2) := by
    simp [initOptions, mkBrowser, hh, he, hs]
  have h1 : Browser.get_drission_browser e (mkBrowser c1) = Browser.init e (mkBrowser c1) := rfl
  have h2 : Browser.get_drission_browser e (mkBrowser c2) = Browser.init e (mkBrowser c2) := rfl
  rw [h1, h2]
  by_cases hl : e.launchOk <;> simp [Browser.init, hl, hopts, initOptions, mkBrowser, hh, he, hs]

/-- Witness for C9: the all-endpoints configuration and the all-defaults
configuration agree on the three consulted inputs, and the public entry
point treats them identically. -/
theorem public_acquire_runs_init_only_witness :
    allEndpointsCfg.headless = plainCfg.headless ∧
    allEndpointsCfg.extra_chromium_args = plainCfg.extra_chromium_args ∧
    allEndpointsCfg.disable_security = plainCfg.disable_security ∧
    ((Browser.get_drission_browser envDown (mkBrowser allEndpointsCfg)).result
        = (Browser.get_drission_browser envDown (mkBrowser plainCfg)).result ∧
     (Browser.get_drission_browser envDown (mkBrowser allEndpointsCfg)).effects
        = (Browser.get_drission_browser envDown (mkBrowser plainCfg)).effects ∧
     (Browser.get_drission_browser envDown (mkBrowser allEndpointsCfg)).effects
        = [Effect.launch (initOptions (mkBrowser allEndpointsCfg))] ∧
     initOptions (mkBrowser allEndpointsCfg)
        = (if allEndpointsCfg.headless then ["--headless"] else [])
            ++ allEndpointsCfg.extra_chromium_args
            ++ securityArgs allEndpointsCfg.disable_security) :=
  ⟨rfl, rfl, rfl,
   public_acquire_runs_init_only envDown allEndpointsCfg plainCfg rfl rfl rfl⟩

/-- C10: every configuration taking the fresh standard launch path (no CDP
endpoint, no WSS endpoint, no fixed executable path) launches with a
generated argument list that contains --no-sandbox, whatever the value of
the disable-security flag. -/
theorem standard_launch_always_no_sandbox (e : Env) (c : BrowserConfig)
    (hc : truthy c.cdp_url = false) (hw : truthy c.wss_url = false)
    (hp : truthy c.chrome_instance_path = false) :
    (Browser.setup_browser e (mkBrowser c)).effects
        = [Effect.launch (standardOptions (mkBrowser c))] ∧
    "--no-sandbox" ∈ standardOptions (mkBrowser c) := by
  have hd : Browser.setup_browser e (mkBrowser c)
      = Browser.setup_standard_browser e (mkBrowser c) := by
    unfold Browser.setup_browser
    simp [mkBrowser, hc, hw, hp]
  constructor
  · rw [hd]
    unfold Browser.setup_standard_browser
    by_cases hl : e.launchOk <;> simp [hl]
  · simp [standardOptions, standardArgs]

/-- Witness for C10 at a configuration with the disable-security flag off. -/
theorem standard_launch_always_no_sandbox_witness :
    truthy noSecCfg.cdp_url = false ∧
    truthy noSecCfg.wss_url = false ∧
    truthy noSecCfg.chrome_instance_path = false ∧
    ((Browser.setup_browser envDown (mkBrowser noSecCfg)).effects
        = [Effect.launch (standardOptions (mkBrowser noSecCfg))] ∧
     "--no-sandbox" ∈ standardOptions (mkBrowser noSecCfg)) :=
  ⟨rfl, rfl, rfl, standard_launch_always_no_sandbox envDown noSecCfg rfl rfl rfl⟩

/-- C1: in reuse-or-launch, when every probe of the local debugging
endpoint fails, `acquire` spawns exactly one process, performs exactly 10
post-spawn poll attempts, and raises the conflict error whose message tells
the operator to close all existing Chrome instances and try again. -/
theorem reuse_or_launch_conflict_after_ten_polls (e : Env) (c : BrowserConfig)
    (hc : truthy c.cdp_url = false) (hw : truthy c.wss_url = false)
    (hp : truthy c.chrome_instance_path = true)
    (hf : ∀ t, probeOk200 (e.probe t) = false) :
    (Browser.setup_browser e (mkBrowser c)).result
        = .error (.launchConflict chromeConflictMsg) ∧
    ((Browser.setup_browser e (mkBrowser c)).effects.filter isSpawn).length = 1 ∧
    ((afterFirstSpawn (Browser.setup_browser e (mkBrowser c)).effects).filter isProbe).length
        = 10 := by
  rw [setup_browser_instance_mode e (mkBrowser c) hc hw hp]
  unfold Browser.setup_browser_with_instance
  simp only [mkBrowser, hp, hf 0, pollLoop_all_fail e hf 10 1, Bool.true_eq_false,
    if_false, Bool.false_eq_true]
  refine ⟨?_, ?_, ?_⟩ <;>
    simp [isSpawn, isProbe, afterFirstSpawn, List.filter_append,
      (pollTrace_filter 10).1, (pollTrace_filter 10).2]

/-- Witness for C1: a path-only configuration against an endpoint that
never answers. -/
theorem reuse_or_launch_conflict_after_ten_polls_witness :
    truthy pathCfg.cdp_url = false ∧
    truthy pathCfg.wss_url = false ∧
    truthy pathCfg.chrome_instance_path = true ∧
    (∀ t, probeOk200 (envDown.probe t) = false) ∧
    ((Browser.setup_browser envDown (mkBrowser pathCfg)).result
        = .error (.launchConflict chromeConflictMsg) ∧
     ((Browser.setup_browser envDown (mkBrowser pathCfg)).effects.filter isSpawn).length = 1 ∧
     ((afterFirstSpawn (Browser.setup_browser envDown (mkBrowser pathCfg)).effects).filter
         isProbe).length = 10) :=
  ⟨rfl, rfl, rfl, fun _ => rfl,
   reuse_or_launch_conflict_after_ten_polls envDown pathCfg rfl rfl rfl (fun _ => rfl)⟩

/-- C6: in reuse-or-launch, when the initial probe fails by connection
refused or by timeout, the run proceeds (the probe failure does not escape
as an error: the outcome is either a successful attach or the conflict
error) and spawns exactly one process, with the configured executable path,
the remote-debugging-port argument and the extra launch arguments, and the
standard output and standard error of the child discarded. -/
theorem probe_failure_spawns_with_discarded_stdio (e : Env) (c : BrowserConfig)
    (hc : truthy c.cdp_url = false) (hw : truthy c.wss_url = false)
    (hp : truthy c.chrome_instance_path = true)
    (h0 : e.probe 0 = .connError ∨ e.probe 0 = .timeout) :
    (Browser.setup_browser e (mkBrowser c)).effects.take 2
        = [Effect.probe probeUrl,
           Effect.spawn ([c.chrome_instance_path.getD "", "--remote-debugging-port=9222"]
               ++ c.extra_chromium_args) true true] ∧
    ((Browser.setup_browser e (mkBrowser c)).effects.filter isSpawn).length = 1 ∧
    ((Browser.setup_browser e (mkBrowser c)).result = .ok (Handle.connected debugUrl) ∨
     (Browser.setup_browser e (mkBrowser c)).result
        = .error (.launchConflict chromeConflictMsg)) := by
  have h0' : probeOk200 (e.probe 0) = false := by
    rcases h0 with h | h <;> simp [h, probeOk200]
  rw [setup_browser_instance_mode e (mkBrowser c) hc hw hp]
  unfold Browser.setup_browser_with_instance
  cases hb : (pollLoop e 10 1).2.1 <;>
    simp [mkBrowser, hp, h0', hb, isSpawn, pollLoop_no_spawn e 10 1, List.filter_append]

/-- Witness for C6: a path-only configuration whose initial probe times
out; the run spawns once and, the later polls succeeding, attaches. -/
theorem probe_failure_spawns_with_discarded_stdio_witness :
    truthy pathCfg.cdp_url = false ∧
    truthy pathCfg.wss_url = false ∧
    truthy pathCfg.chrome_instance_path = true ∧
    (envLateUp.probe 0 = .connError ∨ envLateUp.probe 0 = .timeout) ∧
    ((Browser.setup_browser envLateUp (mkBrowser pathCfg)).effects.take 2
        = [Effect.probe probeUrl,
           Effect.spawn ([pathCfg.chrome_instance_path.getD "", "--remote-debugging-port=9222"]
               ++ pathCfg.extra_chromium_args) true true] ∧
     ((Browser.setup_browser envLateUp (mkBrowser pathCfg)).effects.filter isSpawn).length = 1 ∧
     ((Browser.setup_browser envLateUp (mkBrowser pathCfg)).result
        = .ok (Handle.connected debugUrl) ∨
      (Browser.setup_browser envLateUp (mkBrowser pathCfg)).result
        = .error (.launchConflict chromeConflictMsg))) :=
  ⟨rfl, rfl, rfl, Or.inr rfl,
   probe_failure_spawns_with_discarded_stdio envLateUp pathCfg rfl rfl rfl (Or.inr rfl)⟩
